import Mathlib

/-!
Verification of the repository's two Jupyter notebooks, embedded shallowly:

* `matplotlibNb` embeds the matplotlib/seaborn example notebook;
* `transformersNb` embeds `examples/frameworks/huggingface/transformers.ipynb`.

Each code cell is a list of Python statements over a small statement/expression
grammar (`PyStmt`, `PyExpr`).  The grammar includes the Python constructs the
notebooks do NOT use (loops, conditionals, try/except, async, await, raise) so
that their absence is a provable fact about the embedding rather than a
restriction of the grammar.  Comment lines are carried as `PyStmt.comment`
with their text (apostrophes and quote characters of the original comment
text are dropped); markdown cells are carried as `Cell.markdown` with their
heading, since they do not execute.  `%env NAME=VALUE` notebook magics are
`PyStmt.envSet`, and `!pip ...` shell escapes are `PyStmt.shellCmd`.
-/

namespace ClearmlNotebooks

/-- Python expressions, as used by the two notebooks (plus `awaitE`, which the
notebooks never use). Keyword arguments of a call are name/value pairs. -/
inductive PyExpr where
  | intLit (n : Int)
  | floatLit (text : String)
  | strLit (s : String)
  | boolLit (b : Bool)
  | var (name : String)
  | attr (obj : PyExpr) (field : String)
  | call (fn : PyExpr) (args : List PyExpr) (kwargs : List (String × PyExpr))
  | binop (op : String) (lhs rhs : PyExpr)
  | subscript (obj : PyExpr) (index : PyExpr)
  | listLit (elems : List PyExpr)
  | awaitE (e : PyExpr)

/-- Python statements and notebook magics, as used by the two notebooks (plus
the control-flow, exception and async constructs, which the notebooks never
use). -/
inductive PyStmt where
  | comment (text : String)
  | shellCmd (cmd : String)
  | envSet (name value : String)
  | importMod (module : String) (asName : Option String)
  | importFrom (module : String) (names : List String)
  | assign (target : String) (value : PyExpr)
  | exprStmt (e : PyExpr)
  | ret (e : PyExpr)
  | funcDef (name : String) (params : List String) (body : List PyStmt)
  | asyncFuncDef (name : String) (params : List String) (body : List PyStmt)
  | forLoop (target : String) (iter : PyExpr) (body : List PyStmt)
  | whileLoop (cond : PyExpr) (body : List PyStmt)
  | ifStmt (cond : PyExpr) (thenBody elseBody : List PyStmt)
  | tryExcept (body : List PyStmt) (excType : Option String) (handler : List PyStmt)
  | raiseStmt (e : Option PyExpr)

/-- A notebook cell: markdown (non-executable, carried by its heading) or code. -/
inductive Cell where
  | markdown (heading : String)
  | code (stmts : List PyStmt)

/-- A notebook is its cells in order. -/
structure Notebook where
  cells : List Cell

mutual

/-- An expression together with all of its subexpressions. -/
def PyExpr.subterms : PyExpr → List PyExpr
  | .intLit n => [.intLit n]
  | .floatLit t => [.floatLit t]
  | .strLit s => [.strLit s]
  | .boolLit b => [.boolLit b]
  | .var n => [.var n]
  | .attr o f => .attr o f :: o.subterms
  | .call f as ks => .call f as ks :: (f.subterms ++ subtermsOfList as ++ subtermsOfKwargs ks)
  | .binop op l r => .binop op l r :: (l.subterms ++ r.subterms)
  | .subscript o i => .subscript o i :: (o.subterms ++ i.subterms)
  | .listLit es => .listLit es :: subtermsOfList es
  | .awaitE e => .awaitE e :: e.subterms

/-- All subexpressions of a list of expressions. -/
def subtermsOfList : List PyExpr → List PyExpr
  | [] => []
  | e :: es => e.subterms ++ subtermsOfList es

/-- All subexpressions of keyword arguments. -/
def subtermsOfKwargs : List (String × PyExpr) → List PyExpr
  | [] => []
  | (_, e) :: es => e.subterms ++ subtermsOfKwargs es

end

mutual

/-- The expressions a statement contains, including those inside nested bodies. -/
def PyStmt.exprs : PyStmt → List PyExpr
  | .comment _ => []
  | .shellCmd _ => []
  | .envSet _ _ => []
  | .importMod _ _ => []
  | .importFrom _ _ => []
  | .assign _ v => [v]
  | .exprStmt e => [e]
  | .ret e => [e]
  | .funcDef _ _ body => exprsOfStmts body
  | .asyncFuncDef _ _ body => exprsOfStmts body
  | .forLoop _ it body => it :: exprsOfStmts body
  | .whileLoop c body => c :: exprsOfStmts body
  | .ifStmt c t e => c :: (exprsOfStmts t ++ exprsOfStmts e)
  | .tryExcept b _ h => exprsOfStmts b ++ exprsOfStmts h
  | .raiseStmt e => e.toList

/-- The expressions a statement list contains. -/
def exprsOfStmts : List PyStmt → List PyExpr
  | [] => []
  | s :: ss => s.exprs ++ exprsOfStmts ss

end

mutual

/-- A statement together with every statement nested inside it. -/
def PyStmt.allNested : PyStmt → List PyStmt
  | .funcDef n p body => .funcDef n p body :: allNestedOfList body
  | .asyncFuncDef n p body => .asyncFuncDef n p body :: allNestedOfList body
  | .forLoop t it body => .forLoop t it body :: allNestedOfList body
  | .whileLoop c body => .whileLoop c body :: allNestedOfList body
  | .ifStmt c t e => .ifStmt c t e :: (allNestedOfList t ++ allNestedOfList e)
  | .tryExcept b x h => .tryExcept b x h :: (allNestedOfList b ++ allNestedOfList h)
  | s => [s]

/-- Every statement of a statement list, nested ones included. -/
def allNestedOfList : List PyStmt → List PyStmt
  | [] => []
  | s :: ss => s.allNested ++ allNestedOfList ss

end

/-- The statements of a cell (a markdown cell executes nothing). -/
def Cell.codeStmts : Cell → List PyStmt
  | .markdown _ => []
  | .code ss => ss

/-- The code cells of a notebook, in order, as statement lists. -/
def Notebook.codeCells (nb : Notebook) : List (List PyStmt) :=
  nb.cells.filterMap fun c =>
    match c with
    | .code ss => some ss
    | .markdown _ => none

/-- Every top-level statement of a notebook, in execution order. -/
def Notebook.allTopStmts (nb : Notebook) : List PyStmt :=
  nb.codeCells.flatten

/-- Every statement of a notebook, nested ones included. -/
def Notebook.allStmts (nb : Notebook) : List PyStmt :=
  allNestedOfList nb.allTopStmts

/-- Every expression appearing anywhere in a notebook (subexpressions included). -/
def Notebook.allSubterms (nb : Notebook) : List PyExpr :=
  subtermsOfList (exprsOfStmts nb.allTopStmts)

/-- The matplotlib/seaborn example notebook, cell by cell.  `shellCmd` carries
the command after the `!` escape; comment lines keep their text (quote marks
and apostrophes dropped); markdown cells are carried by their heading. -/
def matplotlibNb : Notebook :=
  ⟨[ .markdown "Allegro ClearML matplotlib example",
     .code
       [ .comment "If you dont have ClearML installed then uncomment this line",
         .comment "!pip install clearml" ],
     .code
       [ .shellCmd "pip install seaborn" ],
     .markdown "Create a new task.",
     .code
       [ .importMod "matplotlib.pyplot" (some "plt"),
         .importMod "numpy" (some "np"),
         .importMod "seaborn" (some "sns"),
         .importFrom "clearml" ["Task"],
         .comment "Start a new task",
         .assign "task"
           (.call (.attr (.var "Task") "init") []
             [("project_name", .strLit "Colab notebooks"),
              ("task_name", .strLit "Matplotlib example")]) ],
     .markdown "Matplotlib support",
     .code
       [ .comment "create plot",
         .assign "N" (.intLit 50),
         .assign "x" (.call (.attr (.attr (.var "np") "random") "rand") [.var "N"] []),
         .assign "y" (.call (.attr (.attr (.var "np") "random") "rand") [.var "N"] []),
         .assign "colors" (.call (.attr (.attr (.var "np") "random") "rand") [.var "N"] []),
         .assign "area"
           (.binop "**"
             (.binop "*" (.intLit 30)
               (.call (.attr (.attr (.var "np") "random") "rand") [.var "N"] []))
             (.intLit 2)),
         .comment "0 to 15 point radii",
         .exprStmt
           (.call (.attr (.var "plt") "scatter") [.var "x", .var "y"]
             [("s", .var "area"), ("c", .var "colors"), ("alpha", .floatLit "0.5")]),
         .exprStmt (.call (.attr (.var "plt") "show") [] []) ],
     .code
       [ .comment "create another plot - with a name",
         .assign "x" (.call (.attr (.var "np") "linspace") [.intLit 0, .intLit 10, .intLit 30] []),
         .assign "y" (.call (.attr (.var "np") "sin") [.var "x"] []),
         .exprStmt
           (.call (.attr (.var "plt") "plot") [.var "x", .var "y", .strLit "o"]
             [("color", .strLit "pink")]),
         .exprStmt (.call (.attr (.var "plt") "show") [] []) ],
     .markdown "By calling the imshow method, ClearML automatically reports plot images",
     .code
       [ .comment "create unitlted image plot",
         .assign "m"
           (.call (.attr (.var "np") "eye") [.intLit 256, .intLit 256]
             [("dtype", .attr (.var "np") "uint8")]),
         .exprStmt (.call (.attr (.var "plt") "imshow") [.var "m"] []),
         .exprStmt (.call (.attr (.var "plt") "show") [] []) ],
     .code
       [ .comment "create image plot - with a name",
         .assign "m"
           (.call (.attr (.var "np") "eye") [.intLit 256, .intLit 256]
             [("dtype", .attr (.var "np") "uint8")]),
         .exprStmt (.call (.attr (.var "plt") "imshow") [.var "m"] []),
         .exprStmt (.call (.attr (.var "plt") "title") [.strLit "Image Title"] []),
         .exprStmt (.call (.attr (.var "plt") "show") [] []) ],
     .code
       [ .comment "create plot with savefig",
         .assign "N" (.intLit 10),
         .assign "x" (.call (.attr (.attr (.var "np") "random") "rand") [.var "N"] []),
         .assign "y" (.call (.attr (.attr (.var "np") "random") "rand") [.var "N"] []),
         .assign "colors" (.call (.attr (.attr (.var "np") "random") "rand") [.var "N"] []),
         .assign "area"
           (.binop "**"
             (.binop "*" (.intLit 30)
               (.call (.attr (.attr (.var "np") "random") "rand") [.var "N"] []))
             (.intLit 2)),
         .exprStmt (.call (.attr (.var "plt") "title") [.strLit "savefig Image"] []),
         .exprStmt
           (.call (.attr (.var "plt") "scatter") [.var "x", .var "y"]
             [("s", .var "area"), ("c", .var "colors"), ("alpha", .floatLit "0.5")]),
         .exprStmt (.call (.attr (.var "plt") "savefig") [.strLit "plot.png"] []) ],
     .markdown "Seaborn support",
     .code
       [ .exprStmt (.call (.attr (.var "sns") "set") [] [("style", .strLit "darkgrid")]),
         .comment "Load an example dataset with long-form data",
         .assign "fmri" (.call (.attr (.var "sns") "load_dataset") [.strLit "fmri"] []),
         .comment "Plot the responses for different events and regions",
         .exprStmt
           (.call (.attr (.var "sns") "lineplot") []
             [("x", .strLit "timepoint"), ("y", .strLit "signal"),
              ("hue", .strLit "region"), ("style", .strLit "event"),
              ("data", .var "fmri")]),
         .exprStmt (.call (.attr (.var "plt") "show") [] []) ] ]⟩

/-- The HuggingFace transformers example notebook, cell by cell, under the same
conventions as `matplotlibNb`.  The `%env NAME=VALUE` magics are `envSet`
statements; the commented-out `%env CLEARML_TASK=` and `%env CLEARML_PROJECT=`
lines stay comments. -/
def transformersNb : Notebook :=
  ⟨[ .markdown "HuggingFace Transformers",
     .markdown "Set up ClearML",
     .code
       [ .comment "ClearML credentials",
         .envSet "CLEARML_WEB_HOST" "",
         .envSet "CLEARML_API_HOST" "",
         .envSet "CLEARML_FILES_HOST" "",
         .envSet "CLEARML_API_ACCESS_KEY" "",
         .envSet "CLEARML_API_SECRET_KEY" "" ],
     .code
       [ .comment "Set to true so ClearML will log the models created by the trainer",
         .envSet "CLEARML_LOG_MODEL" "True",
         .comment "Set the ClearML task name (default Trainer)",
         .comment "%env CLEARML_TASK=",
         .comment "Set tasks project (default HuggingFace Transformers)",
         .comment "%env CLEARML_PROJECT=" ],
     .markdown "Set up Environment",
     .code
       [ .comment "ClearML installation",
         .shellCmd "pip install clearml",
         .comment "Transformers installation",
         .shellCmd "pip install transformers[torch] datasets",
         .shellCmd "pip install accelerate -U" ],
     .markdown "Create Trainer - a PyTorch optimized training loop",
     .markdown "Create a trainer, passing a PreTrainedModel or a torch.nn.Module",
     .code
       [ .importFrom "transformers" ["AutoModelForSequenceClassification"],
         .assign "model"
           (.call (.attr (.var "AutoModelForSequenceClassification") "from_pretrained")
             [.strLit "distilbert-base-uncased"] []) ],
     .markdown "TrainingArguments contains the model hyperparameters",
     .code
       [ .importFrom "transformers" ["TrainingArguments"],
         .assign "training_args"
           (.call (.var "TrainingArguments") []
             [("output_dir", .strLit "path/to/save/folder/"),
              ("learning_rate", .floatLit "2e-5"),
              ("per_device_train_batch_size", .intLit 8),
              ("per_device_eval_batch_size", .intLit 8),
              ("num_train_epochs", .intLit 2),
              ("report_to", .listLit [.strLit "clearml"])]) ],
     .markdown "A preprocessing class like a tokenizer",
     .code
       [ .importFrom "transformers" ["AutoTokenizer"],
         .assign "tokenizer"
           (.call (.attr (.var "AutoTokenizer") "from_pretrained")
             [.strLit "distilbert-base-uncased"] []) ],
     .markdown "Load a dataset",
     .code
       [ .importFrom "datasets" ["load_dataset"],
         .assign "dataset" (.call (.var "load_dataset") [.strLit "rotten_tomatoes"] []),
         .comment "doctest: +IGNORE_RESULT" ],
     .markdown "Create a function to tokenize the dataset, and apply it with map",
     .code
       [ .funcDef "tokenize_dataset" ["dataset"]
           [ .ret (.call (.var "tokenizer") [.subscript (.var "dataset") (.strLit "text")] []) ],
         .assign "dataset"
           (.call (.attr (.var "dataset") "map") [.var "tokenize_dataset"]
             [("batched", .boolLit true)]) ],
     .markdown "A DataCollatorWithPadding to create a batch of examples",
     .code
       [ .importFrom "transformers" ["DataCollatorWithPadding"],
         .assign "data_collator"
           (.call (.var "DataCollatorWithPadding") [] [("tokenizer", .var "tokenizer")]) ],
     .markdown "Now gather all these classes in Trainer",
     .code
       [ .importFrom "transformers" ["Trainer"],
         .assign "trainer"
           (.call (.var "Trainer") []
             [("model", .var "model"),
              ("args", .var "training_args"),
              ("train_dataset", .subscript (.var "dataset") (.strLit "train")),
              ("eval_dataset", .subscript (.var "dataset") (.strLit "test")),
              ("tokenizer", .var "tokenizer"),
              ("data_collator", .var "data_collator")]) ],
     .markdown "Start Training",
     .code
       [ .exprStmt (.call (.attr (.var "trainer") "train") [] []) ],
     .markdown "Closing notes on the ClearMLCallback and default task naming" ]⟩

/-- Whether the string `p` is a prefix of the string `s`. -/
def strStarts (p s : String) : Bool :=
  p.data.isPrefixOf s.data

/-- A dependency-install statement: a shell escape running `pip install`. -/
def PyStmt.isInstall : PyStmt → Bool
  | .shellCmd c => strStarts "pip install" c
  | _ => false

/-- A credential/environment configuration statement: a `%env` magic. -/
def PyStmt.isEnvSet : PyStmt → Bool
  | .envSet _ _ => true
  | _ => false

/-- An exception handler. -/
def PyStmt.isTry : PyStmt → Bool
  | .tryExcept _ _ _ => true
  | _ => false

/-- A `raise` statement. -/
def PyStmt.isRaise : PyStmt → Bool
  | .raiseStmt _ => true
  | _ => false

/-- Any control-flow construct of the repository itself: a function definition,
loop, conditional, exception handler or raise.  (Straight-line statements —
comments, magics, imports, assignments, expression statements — are not.) -/
def PyStmt.isControlFlow : PyStmt → Bool
  | .funcDef _ _ _ => true
  | .asyncFuncDef _ _ _ => true
  | .forLoop _ _ _ => true
  | .whileLoop _ _ => true
  | .ifStmt _ _ _ => true
  | .tryExcept _ _ _ => true
  | .raiseStmt _ => true
  | _ => false

/-- The top-level run/plot calls of the spec: a pyplot scatter / line plot /
image plot, a seaborn line plot, or the training-loop invocation.  Display
and decoration calls (`plt.show`, `plt.title`) and the figure save
(`plt.savefig`) belong to the spec's other steps and are not run/plot calls. -/
def isRunPlotCall : PyExpr → Bool
  | .call (.attr (.var "plt") m) _ _ => m == "scatter" || m == "plot" || m == "imshow"
  | .call (.attr (.var "sns") "lineplot") _ _ => true
  | .call (.attr (.var "trainer") "train") _ _ => true
  | _ => false

/-- A call to `Task.init`, the tracking-session initialization. -/
def isTaskInitCall : PyExpr → Bool
  | .call (.attr (.var "Task") "init") _ _ => true
  | _ => false

/-- A call that writes a local file from repository code: builtin `open`, or a
save/serialize method (`savefig`, `save`, `to_csv`, `write`, `dump`). -/
def isFileWriteCall : PyExpr → Bool
  | .call (.var "open") _ _ => true
  | .call (.attr _ m) _ _ =>
      m == "savefig" || m == "save" || m == "to_csv" || m == "write" || m == "dump"
  | _ => false

/-- Indices (among the code cells, in order) of the cells whose statements
satisfy `p`. -/
def cellIdxsWhere (nb : Notebook) (p : List PyStmt → Bool) : List Nat :=
  (nb.codeCells.enum.filter fun ic => p ic.2).map fun ic => ic.1

/-- Whether some expression of the cell (subexpressions included) satisfies `p`. -/
def cellHasCall (ss : List PyStmt) (p : PyExpr → Bool) : Bool :=
  (subtermsOfList (exprsOfStmts ss)).any p

/-- Code-cell indices of the dependency-install cells. -/
def installCellIdxs (nb : Notebook) : List Nat :=
  cellIdxsWhere nb fun ss => ss.any PyStmt.isInstall

/-- Code-cell indices of the credential/environment configuration cells. -/
def credCellIdxs (nb : Notebook) : List Nat :=
  cellIdxsWhere nb fun ss => ss.any PyStmt.isEnvSet

/-- Code-cell indices of the cells making a top-level run/plot call. -/
def runPlotCellIdxs (nb : Notebook) : List Nat :=
  cellIdxsWhere nb fun ss => cellHasCall ss isRunPlotCall

/-- Code-cell indices of the cells calling `Task.init`. -/
def taskInitCellIdxs (nb : Notebook) : List Nat :=
  cellIdxsWhere nb fun ss => cellHasCall ss isTaskInitCall

/-- How many run/plot calls the notebook makes in total. -/
def runPlotCallCount (nb : Notebook) : Nat :=
  (nb.allSubterms.filter isRunPlotCall).length

/-- How many `Task.init` calls the notebook makes in total. -/
def taskInitCallCount (nb : Notebook) : Nat :=
  (nb.allSubterms.filter isTaskInitCall).length

/-- Every index of `xs` is strictly below every index of `ys`. -/
def allBefore (xs ys : List Nat) : Bool :=
  xs.all fun i => ys.all fun j => decide (i < j)

/-- How many times the notebook assigns to the variable `v` (nested statement
bodies included; function parameters are not assignments). -/
def assignCount (nb : Notebook) (v : String) : Nat :=
  (nb.allStmts.filter fun s =>
    match s with
    | .assign t _ => t == v
    | _ => false).length

/-- How many times the notebook mentions the variable `v` in an expression.
(The targets of assignments are binders, not expressions.) -/
def varMentionCount (nb : Notebook) (v : String) : Nat :=
  (nb.allSubterms.filter fun e =>
    match e with
    | .var n => n == v
    | _ => false).length

/-- The names set by the notebook's `%env` magics, in execution order. -/
def envSetNames (nb : Notebook) : List String :=
  nb.allStmts.filterMap fun s =>
    match s with
    | .envSet n _ => some n
    | _ => none

/-- The modules the notebook imports (by `import` or `from ... import`). -/
def importedModules (nb : Notebook) : List String :=
  nb.allStmts.filterMap fun s =>
    match s with
    | .importMod m _ => some m
    | .importFrom m _ => some m
    | _ => none

/-- The string literals of the notebook that start with `p`. -/
def strLitsStarting (nb : Notebook) (p : String) : List String :=
  nb.allSubterms.filterMap fun e =>
    match e with
    | .strLit s => if strStarts p s then some s else none
    | _ => none

/-- All file-writing calls the notebook makes. -/
def fileWriteCalls (nb : Notebook) : List PyExpr :=
  nb.allSubterms.filter isFileWriteCall

/-- Set `n` to `v` in an association-list environment (overwriting any earlier
binding of `n`, as `os.environ` does). -/
def upsertEnv (env : List (String × String)) (n v : String) : List (String × String) :=
  if env.any fun p => p.1 == n then
    env.map fun p => if p.1 == n then (n, v) else p
  else
    env ++ [(n, v)]

/-- The environment-variable bindings established by running the notebook top
to bottom, starting from an environment without any of them: each `%env`
magic sets its variable, nothing else touches the environment. -/
def envAfterRun (nb : Notebook) : List (String × String) :=
  nb.allTopStmts.foldl
    (fun env s =>
      match s with
      | .envSet n v => upsertEnv env n v
      | _ => env)
    []

/-- Look a variable up in an association-list environment. -/
def lookupEnv (env : List (String × String)) (n : String) : Option String :=
  (env.find? fun p => p.1 == n).map fun p => p.2

/-- A conditional statement. -/
def PyStmt.isIf : PyStmt → Bool
  | .ifStmt _ _ _ => true
  | _ => false

/-- An `async def` statement. -/
def PyStmt.isAsync : PyStmt → Bool
  | .asyncFuncDef _ _ _ => true
  | _ => false

/-- An `await` expression. -/
def PyExpr.isAwait : PyExpr → Bool
  | .awaitE _ => true
  | _ => false

/-- A call to `plt.scatter`. -/
def isScatterCall : PyExpr → Bool
  | .call (.attr (.var "plt") "scatter") _ _ => true
  | _ => false

/-- A call to `plt.plot`. -/
def isPltLineCall : PyExpr → Bool
  | .call (.attr (.var "plt") "plot") _ _ => true
  | _ => false

/-- A call to `plt.imshow`. -/
def isImshowCall : PyExpr → Bool
  | .call (.attr (.var "plt") "imshow") _ _ => true
  | _ => false

/-- A call to `plt.title`. -/
def isTitleCall : PyExpr → Bool
  | .call (.attr (.var "plt") "title") _ _ => true
  | _ => false

/-- A call to `plt.savefig`. -/
def isSavefigCall : PyExpr → Bool
  | .call (.attr (.var "plt") "savefig") _ _ => true
  | _ => false

/-- A call to `sns.lineplot`. -/
def isSnsLineplotCall : PyExpr → Bool
  | .call (.attr (.var "sns") "lineplot") _ _ => true
  | _ => false

/-- The exact call `plt.savefig("plot.png")`: one positional string argument
and no keyword options. -/
def isSavefigPlotPngNoKwargs : PyExpr → Bool
  | .call (.attr (.var "plt") "savefig") [.strLit "plot.png"] [] => true
  | _ => false

/-- The operations the matplotlib notebook's cells perform. -/
inductive MplOp where
  | taskInit
  | scatter
  | linePlot
  | imshowUntitled
  | imshowTitled
  | scatterSaved
  | seabornLine
  deriving DecidableEq

/-- What operation a matplotlib-notebook cell performs, judged by the library
calls it contains: tracking-session initialization, scatter plot, line plot,
untitled or titled image plot, scatter figure saved to disk, or seaborn line
plot. -/
def classifyMplCell (ss : List PyStmt) : Option MplOp :=
  if cellHasCall ss isTaskInitCall then some .taskInit
  else if cellHasCall ss isScatterCall && cellHasCall ss isSavefigCall then some .scatterSaved
  else if cellHasCall ss isScatterCall then some .scatter
  else if cellHasCall ss isPltLineCall then some .linePlot
  else if cellHasCall ss isImshowCall && cellHasCall ss isTitleCall then some .imshowTitled
  else if cellHasCall ss isImshowCall then some .imshowUntitled
  else if cellHasCall ss isSnsLineplotCall then some .seabornLine
  else none

/-- Code-cell indices of the cells containing an assignment. -/
def assignCellIdxs (nb : Notebook) : List Nat :=
  cellIdxsWhere nb fun ss =>
    ss.any fun s =>
      match s with
      | .assign _ _ => true
      | _ => false

/-- The Python modules that introduce threads, processes or async execution. -/
def concurrencyModules : List String :=
  ["threading", "multiprocessing", "asyncio", "concurrent.futures", "subprocess"]

/-- Claim C1 is false as stated: in the transformers notebook the
dependency-install cell is code cell 2 while the credential-configuration
cells are code cells 0 and 1, so no install cell precedes the credential
cells; and the matplotlib notebook makes six top-level plot calls, not
exactly one. -/
theorem C1_order_counterexample :
    installCellIdxs transformersNb = [2] ∧
    credCellIdxs transformersNb = [0, 1] ∧
    allBefore (installCellIdxs transformersNb) (credCellIdxs transformersNb) = false ∧
    runPlotCallCount matplotlibNb = 6 ∧
    runPlotCallCount matplotlibNb ≠ 1 := by decide

/-- Claim C1, amended: in the transformers notebook every
credential-configuration cell precedes the dependency-install cell, the
install cell precedes every object-construction (assignment) cell, these all
precede the single top-level run call, and that run call is unique; the
matplotlib notebook runs its install cell, then the `Task.init` construction
cell, then six plot cells, so it makes six top-level plot calls rather than
one. -/
theorem C1_order_amended :
    allBefore (credCellIdxs transformersNb) (installCellIdxs transformersNb) = true ∧
    allBefore (installCellIdxs transformersNb) (assignCellIdxs transformersNb) = true ∧
    allBefore (assignCellIdxs transformersNb) (runPlotCellIdxs transformersNb) = true ∧
    runPlotCellIdxs transformersNb = [10] ∧
    runPlotCallCount transformersNb = 1 ∧
    installCellIdxs matplotlibNb = [1] ∧
    credCellIdxs matplotlibNb = [] ∧
    taskInitCellIdxs matplotlibNb = [2] ∧
    allBefore (installCellIdxs matplotlibNb) (taskInitCellIdxs matplotlibNb) = true ∧
    allBefore (taskInitCellIdxs matplotlibNb) (runPlotCellIdxs matplotlibNb) = true ∧
    runPlotCellIdxs matplotlibNb = [3, 4, 5, 6, 7, 8] ∧
    runPlotCallCount matplotlibNb = 6 := by decide

/-- Claim C2: no statement of either notebook, nested bodies included, is a
try/except handler, a raise, or even a conditional — failures of the library
calls propagate to the top level unhandled, unclassified and unrecovered. -/
theorem C2_no_exception_handling :
    matplotlibNb.allStmts.all
      (fun s => ! s.isTry && ! s.isRaise && ! s.isIf) = true ∧
    transformersNb.allStmts.all
      (fun s => ! s.isTry && ! s.isRaise && ! s.isIf) = true := by decide

/-- Claim C3 is false as stated: the variable `dataset` of the transformers
notebook is bound to a library object and is assigned twice (`load_dataset`,
then rebound to `dataset.map(...)`), not exactly once. -/
theorem C3_single_assignment_counterexample :
    assignCount transformersNb "dataset" = 2 ∧
    assignCount transformersNb "dataset" ≠ 1 := by decide

/-- Claim C3, amended: the library-object variables `task`, `fmri`, `model`,
`training_args`, `tokenizer`, `data_collator` and `trainer` are each assigned
exactly once and never rebound, but `dataset` is rebound once (assigned
twice), and the matplotlib data variables are rebound across plot cells: `x`
and `y` three times, `N`, `colors`, `area` and `m` twice each. -/
theorem C3_assignment_counts :
    assignCount matplotlibNb "task" = 1 ∧
    assignCount matplotlibNb "fmri" = 1 ∧
    assignCount transformersNb "model" = 1 ∧
    assignCount transformersNb "training_args" = 1 ∧
    assignCount transformersNb "tokenizer" = 1 ∧
    assignCount transformersNb "data_collator" = 1 ∧
    assignCount transformersNb "trainer" = 1 ∧
    assignCount transformersNb "dataset" = 2 ∧
    assignCount matplotlibNb "x" = 3 ∧
    assignCount matplotlibNb "y" = 3 ∧
    assignCount matplotlibNb "N" = 2 ∧
    assignCount matplotlibNb "colors" = 2 ∧
    assignCount matplotlibNb "area" = 2 ∧
    assignCount matplotlibNb "m" = 2 := by decide

/-- Claim C4: the transformers notebook's only tracking-session configuration
is setting exactly the six environment variables CLEARML_WEB_HOST,
CLEARML_API_HOST, CLEARML_FILES_HOST, CLEARML_API_ACCESS_KEY,
CLEARML_API_SECRET_KEY and CLEARML_LOG_MODEL; it imports only `transformers`
and `datasets` (in particular not `os`, so it cannot read the variables
back), never mentions the variable `os`, and no string literal starting with
CLEARML appears anywhere, so the values are never read back, transformed or
passed as explicit arguments. -/
theorem C4_env_configuration_only :
    envSetNames transformersNb =
      ["CLEARML_WEB_HOST", "CLEARML_API_HOST", "CLEARML_FILES_HOST",
        "CLEARML_API_ACCESS_KEY", "CLEARML_API_SECRET_KEY", "CLEARML_LOG_MODEL"] ∧
    importedModules transformersNb =
      ["transformers", "transformers", "transformers", "datasets",
        "transformers", "transformers"] ∧
    varMentionCount transformersNb "os" = 0 ∧
    strLitsStarting transformersNb "CLEARML" = [] := by decide

/-- Claim C5: across both notebooks exactly one call writes a local file, the
matplotlib notebook's `plt.savefig` with the single positional argument
"plot.png" and no keyword options (so no explicit format or path options);
the transformers notebook contains no file-writing call at all. -/
theorem C5_only_file_write_is_savefig :
    (fileWriteCalls transformersNb).length = 0 ∧
    (fileWriteCalls matplotlibNb).length = 1 ∧
    (fileWriteCalls matplotlibNb).all isSavefigPlotPngNoKwargs = true := by decide

/-- Claim C6: the matplotlib notebook's cells perform, in order, a
tracking-session initialization, a scatter plot, a line plot, an untitled
image plot, a titled image plot, a saved scatter figure and a seaborn line
plot; the notebook contains no control flow of its own (no function
definitions, loops, conditionals, handlers or raises), and no cell makes more
than one run/plot or init call. -/
theorem C6_matplotlib_cell_ops :
    matplotlibNb.codeCells.filterMap classifyMplCell =
      [.taskInit, .scatter, .linePlot, .imshowUntitled, .imshowTitled,
        .scatterSaved, .seabornLine] ∧
    matplotlibNb.allStmts.all (fun s => ! s.isControlFlow) = true ∧
    matplotlibNb.codeCells.all
      (fun ss =>
        decide (((subtermsOfList (exprsOfStmts ss)).filter
          (fun e => isRunPlotCall e || isTaskInitCall e)).length ≤ 1)) = true := by decide

/-- Claim C7: neither notebook imports a concurrency module (threading,
multiprocessing, asyncio, concurrent.futures, subprocess), mentions one as a
variable, defines an async function, or contains an await expression — every
call completes synchronously before the next statement. -/
theorem C7_no_concurrency :
    (importedModules matplotlibNb).all
      (fun m => ! concurrencyModules.contains m) = true ∧
    (importedModules transformersNb).all
      (fun m => ! concurrencyModules.contains m) = true ∧
    concurrencyModules.all (fun m => varMentionCount matplotlibNb m == 0) = true ∧
    concurrencyModules.all (fun m => varMentionCount transformersNb m == 0) = true ∧
    matplotlibNb.allStmts.all (fun s => ! s.isAsync) = true ∧
    transformersNb.allStmts.all (fun s => ! s.isAsync) = true ∧
    matplotlibNb.allSubterms.all (fun e => ! e.isAwait) = true ∧
    transformersNb.allSubterms.all (fun e => ! e.isAwait) = true := by decide

/-- Claim C8: the matplotlib notebook calls `Task.init` exactly once, in code
cell 2, which precedes every plot cell, and the variable `task` bound to its
result is never mentioned by any later expression — experiment capture relies
on the library's automatic instrumentation alone. -/
theorem C8_task_init_once_unused :
    taskInitCallCount matplotlibNb = 1 ∧
    taskInitCellIdxs matplotlibNb = [2] ∧
    allBefore (taskInitCellIdxs matplotlibNb) (runPlotCellIdxs matplotlibNb) = true ∧
    varMentionCount matplotlibNb "task" = 0 := by decide

/-- Claim C9: running the transformers notebook's credential cells unedited
sets the five credential variables to the empty string and CLEARML_LOG_MODEL
to "True", while CLEARML_TASK and CLEARML_PROJECT stay unset because their
env lines are commented out. -/
theorem C9_env_values_after_run :
    lookupEnv (envAfterRun transformersNb) "CLEARML_WEB_HOST" = some "" ∧
    lookupEnv (envAfterRun transformersNb) "CLEARML_API_HOST" = some "" ∧
    lookupEnv (envAfterRun transformersNb) "CLEARML_FILES_HOST" = some "" ∧
    lookupEnv (envAfterRun transformersNb) "CLEARML_API_ACCESS_KEY" = some "" ∧
    lookupEnv (envAfterRun transformersNb) "CLEARML_API_SECRET_KEY" = some "" ∧
    lookupEnv (envAfterRun transformersNb) "CLEARML_LOG_MODEL" = some "True" ∧
    lookupEnv (envAfterRun transformersNb) "CLEARML_TASK" = none ∧
    lookupEnv (envAfterRun transformersNb) "CLEARML_PROJECT" = none := by decide

end ClearmlNotebooks
